import Mathlib

/-!
Verification of the ILP sender module (`src/lib/sender.js`) and the
receiver-rejection error class.

Shallow embedding conventions:
* Timestamps (ISO-8601 strings / `moment` values in the source) are modelled
  as `Nat` milliseconds since the epoch; `moment().add(n, 'seconds')` becomes
  `now + n * 1000` and `moment.min` becomes `Nat.min`.
* JavaScript strings are Lean `String`s; a missing or empty required string
  argument is modelled as `""` (the falsy cases of the `!x` checks).
* Promise results are `Except JsError α`; a rejected promise is
  `Except.error e`.
* External helpers that live outside `src` (`aguid`, the crypto helpers, the
  condition-URI encoder, base64url) are abstracted as explicit function
  parameters, so every statement is universally quantified over them.
* Interactions with the ilp-core client are recorded as an explicit call
  trace (`List ClientCall`), and the oracle `ClientEnv` fixes the outcomes
  the client would deliver during one call.
-/

/-- A JavaScript `Error` as the sender observes it: a `name` (used by the
code to branch on `DuplicateIdError` / `MissingFulfillmentError`) and a
`message`. -/
structure JsError where
  name : String
  message : String
deriving DecidableEq, Repr

/-- One interaction with the ilp-core client, in the order the sender
performs them. -/
inductive ClientCall where
  | connect
  | quote
  | sendQuotedPayment (transferUuid : String)
  | registerFulfillListener
  | getFulfillment (transferUuid : String)
  | removeFulfillListener
deriving DecidableEq, Repr

/-- A quote response from the connector (`client.quote`). -/
structure QuoteResponse where
  sourceAmount : String
  destinationAmount : String
  connectorAccount : String
deriving DecidableEq, Repr

/-- A payment request as consumed by `quoteRequest` (produced by a
receiver). `expires_at` is the stated expiry in epoch milliseconds. -/
structure PaymentRequest where
  address : String
  amount : String
  expires_at : Nat
  condition : String
  data : Option String
deriving DecidableEq, Repr

/-- The `PaymentParams` object built by `quoteRequest` and consumed (and
mutated) by `payRequest`. `memoData` / `memoExpiresAt` are the two fields of
the nested `destinationMemo` object; `uuid` is the field `payRequest` merges
into the object. -/
structure PaymentParams where
  sourceAmount : String
  connectorAccount : String
  destinationAmount : String
  destinationAccount : String
  memoData : Option String
  memoExpiresAt : Nat
  expiresAt : Nat
  executionCondition : String
  uuid : Option String := none
deriving DecidableEq, Repr

/-- `sender.js` line 46: `new Error('Must provide destination address')`. -/
def noDestinationAddressError : JsError :=
  { name := "Error", message := "Must provide destination address" }

/-- `sender.js` line 49: `new Error('Must provide source amount')`. -/
def noSourceAmountError : JsError :=
  { name := "Error", message := "Must provide source amount" }

/-- `sender.js` line 77: `new Error('Must provide destination amount')`. -/
def noDestinationAmountError : JsError :=
  { name := "Error", message := "Must provide destination amount" }

/-- `sender.js` line 101: `new Error('Malformed payment request: no address')`. -/
def noAddressError : JsError :=
  { name := "Error", message := "Malformed payment request: no address" }

/-- `sender.js` line 104: `new Error('Malformed payment request: no amount')`. -/
def noAmountError : JsError :=
  { name := "Error", message := "Malformed payment request: no amount" }

/-- `sender.js` line 107: `new Error('Malformed payment request: no condition')`. -/
def noConditionError : JsError :=
  { name := "Error", message := "Malformed payment request: no condition" }

/-- `sender.js` lines 60, 88, 118: `new Error('Got empty quote response from
the connector')`. -/
def emptyQuoteError : JsError :=
  { name := "Error", message := "Got empty quote response from the connector" }

/-- `sender.js` line 166: `new Error('Transfer expired, money returned')` —
the rejection the spec names `ExpiredTransferError`. -/
def expiredTransferError : JsError :=
  { name := "Error", message := "Transfer expired, money returned" }

/-- `quoteSourceAmount` (`sender.js` lines 44-64). The oracle `quoteResp`
is what `client.quote` would resolve with (`none` models an empty/absent
response). Returns the promise outcome together with the trace of client
interactions performed. -/
def quoteSourceAmount (quoteResp : Option QuoteResponse)
    (destinationAddress sourceAmount : String) :
    Except JsError String × List ClientCall :=
  if destinationAddress = "" then
    (Except.error noDestinationAddressError, [])
  else if sourceAmount = "" then
    (Except.error noSourceAmountError, [])
  else
    match quoteResp with
    | none => (Except.error emptyQuoteError, [ClientCall.connect, ClientCall.quote])
    | some q => (Except.ok q.destinationAmount, [ClientCall.connect, ClientCall.quote])

/-- `quoteDestinationAmount` (`sender.js` lines 72-92). -/
def quoteDestinationAmount (quoteResp : Option QuoteResponse)
    (destinationAddress destinationAmount : String) :
    Except JsError String × List ClientCall :=
  if destinationAddress = "" then
    (Except.error noDestinationAddressError, [])
  else if destinationAmount = "" then
    (Except.error noDestinationAmountError, [])
  else
    match quoteResp with
    | none => (Except.error emptyQuoteError, [ClientCall.connect, ClientCall.quote])
    | some q => (Except.ok q.sourceAmount, [ClientCall.connect, ClientCall.quote])

/-- `quoteRequest` (`sender.js` lines 99-136). `maxHoldDuration` is in
seconds (constructor option, default 10) and `now` is the current time in
epoch milliseconds; the returned `expiresAt` is
`moment.min([moment(request.expires_at), moment().add(maxHoldDuration, 'seconds')])`. -/
def quoteRequest (maxHoldDuration now : Nat) (quoteResp : Option QuoteResponse)
    (request : PaymentRequest) :
    Except JsError PaymentParams × List ClientCall :=
  if request.address = "" then
    (Except.error noAddressError, [])
  else if request.amount = "" then
    (Except.error noAmountError, [])
  else if request.condition = "" then
    (Except.error noConditionError, [])
  else
    match quoteResp with
    | none => (Except.error emptyQuoteError, [ClientCall.connect, ClientCall.quote])
    | some q =>
      (Except.ok
        { sourceAmount := q.sourceAmount
          connectorAccount := q.connectorAccount
          destinationAmount := request.amount
          destinationAccount := request.address
          memoData := request.data
          memoExpiresAt := request.expires_at
          expiresAt := min request.expires_at (now + maxHoldDuration * 1000)
          executionCondition := request.condition
          uuid := none },
        [ClientCall.connect, ClientCall.quote])

/-- C3 — For every payment request, the `expiresAt` in the `PaymentParams`
returned by `quoteRequest` equals the minimum of the request's stated expiry
and `now + maxHoldDuration`; in particular, when the request's expiry lies
further in the future than `now + maxHoldDuration`, the resulting
`expiresAt` equals `now + maxHoldDuration`, so the transfer expiry never
exceeds the configured maximum hold duration. -/
theorem quoteRequest_expiry_clamped (maxHoldDuration now : Nat)
    (q : QuoteResponse) (request : PaymentRequest) (p : PaymentParams)
    (haddr : request.address ≠ "") (hamt : request.amount ≠ "")
    (hcond : request.condition ≠ "")
    (hok : (quoteRequest maxHoldDuration now (some q) request).1 = Except.ok p) :
    p.expiresAt = min request.expires_at (now + maxHoldDuration * 1000) ∧
      (now + maxHoldDuration * 1000 < request.expires_at →
        p.expiresAt = now + maxHoldDuration * 1000) ∧
      p.expiresAt ≤ now + maxHoldDuration * 1000 := by
  simp only [quoteRequest, if_neg haddr, if_neg hamt, if_neg hcond] at hok
  have hp : p.expiresAt = min request.expires_at (now + maxHoldDuration * 1000) := by
    cases hok
    rfl
  refine ⟨hp, ?_, ?_⟩
  · intro hfar
    rw [hp]
    exact Nat.min_eq_right (Nat.le_of_lt hfar)
  · rw [hp]
    exact Nat.min_le_right _ _

/-- Witness for C3 at a concrete input: a request expiring 60 s from now
against a 10 s maximum hold duration is clamped to `now + 10000` ms. -/
theorem quoteRequest_expiry_clamped_witness :
    ∃ p : PaymentParams,
      (quoteRequest 10 1000 (some ⟨"25", "100", "connie"⟩)
        ⟨"g.us.bob", "100", 61000, "cc:0:abc", none⟩).1 = Except.ok p ∧
      p.expiresAt = 1000 + 10 * 1000 := by
  refine ⟨_, rfl, ?_⟩
  have h := quoteRequest_expiry_clamped 10 1000 ⟨"25", "100", "connie"⟩
    ⟨"g.us.bob", "100", 61000, "cc:0:abc", none⟩ _
    (by decide) (by decide) (by decide) rfl
  exact h.2.1 (by decide)

/-- C8 — For every call to `quoteSourceAmount`, `quoteDestinationAmount` or
`quoteRequest` in which a required input is missing/empty, the call rejects
with the corresponding invalid-argument error, locally and before any
interaction with the ledger client (empty call trace). -/
theorem quote_validation_local (quoteResp : Option QuoteResponse)
    (addr amt : String) (request : PaymentRequest) :
    (addr = "" →
      quoteSourceAmount quoteResp addr amt = (Except.error noDestinationAddressError, []) ∧
      quoteDestinationAmount quoteResp addr amt = (Except.error noDestinationAddressError, [])) ∧
    (addr ≠ "" → amt = "" →
      quoteSourceAmount quoteResp addr amt = (Except.error noSourceAmountError, []) ∧
      quoteDestinationAmount quoteResp addr amt = (Except.error noDestinationAmountError, [])) ∧
    (request.address = "" →
      quoteRequest 10 0 quoteResp request = (Except.error noAddressError, [])) ∧
    (request.address ≠ "" → request.amount = "" →
      quoteRequest 10 0 quoteResp request = (Except.error noAmountError, [])) ∧
    (request.address ≠ "" → request.amount ≠ "" → request.condition = "" →
      quoteRequest 10 0 quoteResp request = (Except.error noConditionError, [])) := by
  refine ⟨?_, ?_, ?_, ?_, ?_⟩
  · intro h
    constructor <;> simp [quoteSourceAmount, quoteDestinationAmount, h]
  · intro h1 h2
    constructor <;> simp [quoteSourceAmount, quoteDestinationAmount, h1, h2]
  · intro h
    simp [quoteRequest, h]
  · intro h1 h2
    simp [quoteRequest, h1, h2]
  · intro h1 h2 h3
    simp [quoteRequest, h1, h2, h3]

/-- Witness for C8: every validation branch exercised at concrete inputs. -/
theorem quote_validation_local_witness :
    quoteSourceAmount none "" "5" = (Except.error noDestinationAddressError, []) ∧
    quoteDestinationAmount none "g.us.bob" "" = (Except.error noDestinationAmountError, []) ∧
    quoteRequest 10 0 none ⟨"", "5", 0, "c", none⟩ = (Except.error noAddressError, []) ∧
    quoteRequest 10 0 none ⟨"g.us.bob", "", 0, "c", none⟩ = (Except.error noAmountError, []) ∧
    quoteRequest 10 0 none ⟨"g.us.bob", "5", 0, "", none⟩ = (Except.error noConditionError, []) := by
  have h1 := quote_validation_local none "" "5" ⟨"", "5", 0, "c", none⟩
  have h2 := quote_validation_local none "g.us.bob" "" ⟨"g.us.bob", "", 0, "c", none⟩
  have h3 := quote_validation_local none "g.us.bob" "5" ⟨"g.us.bob", "5", 0, "", none⟩
  exact ⟨(h1.1 rfl).1, (h2.2.1 (by decide) rfl).2, h1.2.2.1 rfl,
    h2.2.2.2.1 (by decide) rfl,
    h3.2.2.2.2 (by decide) (by decide) rfl⟩

/-- The deterministic transfer id (`sender.js` line 146):
`deterministicUuid(uuidSeed + paymentParams.executionCondition)`, with the
`aguid` keyed derivation abstracted as a function parameter. -/
def transferId (aguid : String → String) (uuidSeed : String)
    (paymentParams : PaymentParams) : String :=
  aguid (uuidSeed ++ paymentParams.executionCondition)

/-- The oracle for one `payRequest` call: what `client.sendQuotedPayment`
rejects with (`none` = resolves), what `plugin.getFulfillment(transferId)`
returns, and the stream of `outgoing_fulfill` events as
(arrival time in epoch ms, transfer.executionCondition, fulfillment)
triples in arrival order. -/
structure ClientEnv where
  sendResult : Option JsError
  fulfillmentLookup : Except JsError String
  events : List (Nat × String × String)
deriving Repr

/-- The observable outcome of one `payRequest` call: the promise outcome,
the state of the caller-supplied `paymentParams` object after the call
(`Object.assign` mutates it in place, so `argAfter` is the same object the
caller passed in), the trace of client interactions, whether an
`outgoing_fulfill` listener was ever registered during the call, and how
many such listeners are still registered when the call settles.
`outcome = Except.ok (some f)` models resolving with the fulfillment `f`,
`outcome = Except.ok none` models resolving with `undefined` (reachable
through the chained catches when a submission rejection named
`MissingFulfillmentError` is swallowed and the final then-handler returns
the never-assigned `promiseFulfillmentListener` variable), and
`outcome = Except.error e` models rejecting with `e`. -/
structure PayResult where
  outcome : Except JsError (Option String)
  argAfter : PaymentParams
  calls : List ClientCall
  listenerRegistered : Bool
  listenersRemaining : Nat
deriving Repr

/-- The fulfillment the listener promise resolves with: the first
`outgoing_fulfill` event whose transfer's `executionCondition` matches the
payment's and which arrives before the deadline timer fires at
`payment.expiresAt` (`sender.js` lines 161-179). `none` means the timer
fires first. -/
def matchingFulfillment (cond : String) (expiry : Nat)
    (events : List (Nat × String × String)) : Option String :=
  (events.find? (fun e => e.2.1 == cond && decide (e.1 < expiry))).map (fun e => e.2.2)

/-- The tail of `payRequest` after `sendQuotedPayment` has resolved or its
duplicate-id rejection has been swallowed (`sender.js` lines 160-199): the
listener promise is created (registering the `outgoing_fulfill` listener and
arming the expiry timer), then `getFulfillment(transferId)` is consulted; a
recorded fulfillment resolves the call at once (leaving the listener
registered), a `MissingFulfillmentError` falls through to the listener
promise, any other lookup error is rethrown. -/
def payRequestTail (tid : String) (payment : PaymentParams)
    (fulfillmentLookup : Except JsError String)
    (events : List (Nat × String × String)) : PayResult :=
  match fulfillmentLookup with
  | Except.ok f =>
    { outcome := Except.ok (some f), argAfter := payment,
      calls := [ClientCall.connect, ClientCall.sendQuotedPayment tid,
        ClientCall.registerFulfillListener, ClientCall.getFulfillment tid],
      listenerRegistered := true, listenersRemaining := 1 }
  | Except.error e =>
    if e.name = "MissingFulfillmentError" then
      match matchingFulfillment payment.executionCondition payment.expiresAt events with
      | some f =>
        { outcome := Except.ok (some f), argAfter := payment,
          calls := [ClientCall.connect, ClientCall.sendQuotedPayment tid,
            ClientCall.registerFulfillListener, ClientCall.getFulfillment tid,
            ClientCall.removeFulfillListener],
          listenerRegistered := true, listenersRemaining := 0 }
      | none =>
        { outcome := Except.error expiredTransferError, argAfter := payment,
          calls := [ClientCall.connect, ClientCall.sendQuotedPayment tid,
            ClientCall.registerFulfillListener, ClientCall.getFulfillment tid,
            ClientCall.removeFulfillListener],
          listenerRegistered := true, listenersRemaining := 0 }
    else
      { outcome := Except.error e, argAfter := payment,
        calls := [ClientCall.connect, ClientCall.sendQuotedPayment tid,
          ClientCall.registerFulfillListener, ClientCall.getFulfillment tid],
        listenerRegistered := true, listenersRemaining := 1 }

/-- `payRequest` (`sender.js` lines 143-200): compute the deterministic
transfer id, merge it into the caller's `paymentParams` object, submit the
quoted payment, swallow a `DuplicateIdError` rejection (first catch, lines
155-159), and proceed to the fulfillment phase. A rejection the first catch
rethrows skips the listener/lookup then-block and lands in the second catch
(lines 185-191): there a rejection named `MissingFulfillmentError` is
swallowed (`return null`), after which the final then-handler returns the
never-assigned `promiseFulfillmentListener`, so the call resolves with
`undefined` (`Except.ok none`); any other rejection is rethrown and the call
rejects with it. -/
def payRequest (aguid : String → String) (uuidSeed : String)
    (env : ClientEnv) (paymentParams : PaymentParams) : PayResult :=
  match env.sendResult with
  | none =>
    payRequestTail (transferId aguid uuidSeed paymentParams)
      { paymentParams with uuid := some (transferId aguid uuidSeed paymentParams) }
      env.fulfillmentLookup env.events
  | some e =>
    if e.name = "DuplicateIdError" then
      payRequestTail (transferId aguid uuidSeed paymentParams)
        { paymentParams with uuid := some (transferId aguid uuidSeed paymentParams) }
        env.fulfillmentLookup env.events
    else if e.name = "MissingFulfillmentError" then
      { outcome := Except.ok none,
        argAfter :=
          { paymentParams with uuid := some (transferId aguid uuidSeed paymentParams) },
        calls := [ClientCall.connect,
          ClientCall.sendQuotedPayment (transferId aguid uuidSeed paymentParams)],
        listenerRegistered := false, listenersRemaining := 0 }
    else
      { outcome := Except.error e,
        argAfter :=
          { paymentParams with uuid := some (transferId aguid uuidSeed paymentParams) },
        calls := [ClientCall.connect,
          ClientCall.sendQuotedPayment (transferId aguid uuidSeed paymentParams)],
        listenerRegistered := false, listenersRemaining := 0 }

/-- `sendQuotedPayment` did not fail, or failed only with the swallowed
duplicate-id rejection. -/
def sendAccepted (env : ClientEnv) : Prop :=
  env.sendResult = none ∨
    ∃ e, env.sendResult = some e ∧ e.name = "DuplicateIdError"

/-- Appending to a fixed string on the left is injective (used to transport
collision resistance of the keyed derivation to distinct conditions). -/
theorem string_append_left_cancel {s a b : String} (h : s ++ a = s ++ b) :
    a = b := by
  cases a with
  | mk da =>
    cases b with
    | mk db =>
      cases s with
      | mk ds =>
        have hd : ds ++ da = ds ++ db := congrArg String.data h
        exact congrArg String.mk (List.append_cancel_left hd)

/-- On every path, the tail leaves the caller-visible object untouched. -/
theorem payRequestTail_argAfter (tid : String) (payment : PaymentParams)
    (fl : Except JsError String) (ev : List (Nat × String × String)) :
    (payRequestTail tid payment fl ev).argAfter = payment := by
  unfold payRequestTail
  split
  · rfl
  · split
    · split <;> rfl
    · rfl

/-- On every path, the tail has performed the fulfillment lookup. -/
theorem payRequestTail_getFulfillment_mem (tid : String) (payment : PaymentParams)
    (fl : Except JsError String) (ev : List (Nat × String × String)) :
    ClientCall.getFulfillment tid ∈ (payRequestTail tid payment fl ev).calls := by
  unfold payRequestTail
  split
  · simp
  · split
    · split <;> simp
    · simp

/-- On every path, `payRequest` leaves the caller-supplied object equal to
itself with the deterministic transfer id merged into its `uuid` field. -/
theorem payRequest_argAfter (aguid : String → String) (uuidSeed : String)
    (env : ClientEnv) (p : PaymentParams) :
    (payRequest aguid uuidSeed env p).argAfter =
      { p with uuid := some (transferId aguid uuidSeed p) } := by
  unfold payRequest
  split
  · exact payRequestTail_argAfter _ _ _ _
  · split
    · exact payRequestTail_argAfter _ _ _ _
    · split <;> rfl

/-- When submission succeeded or its rejection was the swallowed
duplicate-id one, `payRequest` reduces to the fulfillment phase. -/
theorem payRequest_sendAccepted (aguid : String → String) (uuidSeed : String)
    (env : ClientEnv) (p : PaymentParams) (h : sendAccepted env) :
    payRequest aguid uuidSeed env p =
      payRequestTail (transferId aguid uuidSeed p)
        { p with uuid := some (transferId aguid uuidSeed p) }
        env.fulfillmentLookup env.events := by
  unfold payRequest
  rcases h with h | ⟨e, he, hname⟩
  · rw [h]
  · rw [he]
    simp [hname]

/-- C1 — On one sender instance (fixed seed and keyed derivation), the
transfer id merged by `payRequest` depends only on the execution condition:
two `PaymentParams` with the same `executionCondition` receive the same
transfer id whatever their other fields and whatever the client does, and —
as long as the keyed derivation `aguid` is collision-free — two
`PaymentParams` with different `executionCondition`s receive different
transfer ids. -/
theorem payRequest_transferId_deterministic (aguid : String → String)
    (uuidSeed : String) (env1 env2 : ClientEnv) (p1 p2 : PaymentParams) :
    (p1.executionCondition = p2.executionCondition →
      transferId aguid uuidSeed p1 = transferId aguid uuidSeed p2 ∧
      (payRequest aguid uuidSeed env1 p1).argAfter.uuid =
        (payRequest aguid uuidSeed env2 p2).argAfter.uuid) ∧
    (Function.Injective aguid →
      p1.executionCondition ≠ p2.executionCondition →
      transferId aguid uuidSeed p1 ≠ transferId aguid uuidSeed p2) := by
  constructor
  · intro h
    have ht : transferId aguid uuidSeed p1 = transferId aguid uuidSeed p2 := by
      unfold transferId
      rw [h]
    refine ⟨ht, ?_⟩
    rw [payRequest_argAfter, payRequest_argAfter]
    simpa using ht
  · intro hinj hne heq
    exact hne (string_append_left_cancel (hinj heq))

/-- A concrete client oracle: submission succeeds, no recorded fulfillment,
no events. -/
def quietEnv : ClientEnv :=
  { sendResult := none
    fulfillmentLookup := Except.error { name := "MissingFulfillmentError", message := "" }
    events := [] }

/-- A concrete `PaymentParams` fixture. -/
def samplePaymentParams : PaymentParams :=
  { sourceAmount := "1", connectorAccount := "connie", destinationAmount := "100"
    destinationAccount := "g.us.bob.abc", memoData := none, memoExpiresAt := 5000
    expiresAt := 5000, executionCondition := "cc:0:3:abc", uuid := none }

/-- The fixture with a different source amount but the same condition. -/
def samplePaymentParamsB : PaymentParams :=
  { samplePaymentParams with sourceAmount := "2" }

/-- The fixture with a different execution condition. -/
def samplePaymentParamsC : PaymentParams :=
  { samplePaymentParams with executionCondition := "cc:0:3:other" }

/-- Witness for C1: with the identity as the (injective) keyed derivation,
equal conditions give equal merged uuids and distinct conditions give
distinct transfer ids. -/
theorem payRequest_transferId_deterministic_witness :
    (payRequest (fun s => s) "seed" quietEnv samplePaymentParams).argAfter.uuid =
      (payRequest (fun s => s) "seed" quietEnv samplePaymentParamsB).argAfter.uuid ∧
    transferId (fun s => s) "seed" samplePaymentParams ≠
      transferId (fun s => s) "seed" samplePaymentParamsC := by
  have h1 := (payRequest_transferId_deterministic (fun s => s) "seed"
    quietEnv quietEnv samplePaymentParams samplePaymentParamsB).1 rfl
  have h2 := (payRequest_transferId_deterministic (fun s => s) "seed"
    quietEnv quietEnv samplePaymentParams samplePaymentParamsC).2
    (fun a b h => h) (by decide)
  exact ⟨h1.2, h2⟩

/-- C9 — `payRequest` mutates its caller-supplied argument: after the call
the same object has gained a `uuid` field equal to the computed transfer id
(the `Object.assign` targets the argument itself), while every other field
is left unchanged — on every execution path. -/
theorem payRequest_mutates_argument (aguid : String → String)
    (uuidSeed : String) (env : ClientEnv) (p : PaymentParams) :
    (payRequest aguid uuidSeed env p).argAfter.uuid =
      some (transferId aguid uuidSeed p) ∧
    (payRequest aguid uuidSeed env p).argAfter.sourceAmount = p.sourceAmount ∧
    (payRequest aguid uuidSeed env p).argAfter.connectorAccount = p.connectorAccount ∧
    (payRequest aguid uuidSeed env p).argAfter.destinationAmount = p.destinationAmount ∧
    (payRequest aguid uuidSeed env p).argAfter.destinationAccount = p.destinationAccount ∧
    (payRequest aguid uuidSeed env p).argAfter.memoData = p.memoData ∧
    (payRequest aguid uuidSeed env p).argAfter.memoExpiresAt = p.memoExpiresAt ∧
    (payRequest aguid uuidSeed env p).argAfter.expiresAt = p.expiresAt ∧
    (payRequest aguid uuidSeed env p).argAfter.executionCondition = p.executionCondition := by
  rw [payRequest_argAfter]
  exact ⟨rfl, rfl, rfl, rfl, rfl, rfl, rfl, rfl, rfl⟩

/-- The client oracle whose submission rejection is named
`MissingFulfillmentError`, the name the chained second catch swallows. -/
def missingSendEnv : ClientEnv :=
  { quietEnv with
      sendResult := some { name := "MissingFulfillmentError", message := "sub" } }

/-- C2 counterexample — a submission failure that is not a duplicate-id
error is not always propagated: when the submission rejection is named
`MissingFulfillmentError`, the rethrown error is swallowed by the chained
second catch (line 187) and the call resolves with `undefined` instead of
rejecting with that error. -/
theorem payRequest_nonduplicate_not_propagated :
    (payRequest (fun s => s) "seed" missingSendEnv samplePaymentParams).outcome =
      Except.ok none ∧
    ¬ ((payRequest (fun s => s) "seed" missingSendEnv samplePaymentParams).outcome =
      Except.error { name := "MissingFulfillmentError", message := "sub" }) := by
  refine ⟨rfl, ?_⟩
  intro h
  exact Except.noConfusion h

/-- C2 amended — If submission rejects with a `DuplicateIdError`,
`payRequest` behaves exactly as if submission had succeeded (the error is
not propagated) and proceeds to the fulfillment lookup. Any other
submission rejection skips the fulfillment phase, with the trace stopping
at the single submission attempt (no retry, no lookup, no listener); among
these, a rejection named `MissingFulfillmentError` is additionally
swallowed by the chained lookup-catch and the call resolves with
`undefined`, while every other rejection is propagated unchanged and
immediately. -/
theorem payRequest_duplicate_swallowed (aguid : String → String)
    (uuidSeed : String) (env : ClientEnv) (p : PaymentParams) (e : JsError)
    (hsend : env.sendResult = some e) :
    (e.name = "DuplicateIdError" →
      payRequest aguid uuidSeed env p =
        payRequest aguid uuidSeed { env with sendResult := none } p ∧
      ClientCall.getFulfillment (transferId aguid uuidSeed p) ∈
        (payRequest aguid uuidSeed env p).calls) ∧
    (e.name ≠ "DuplicateIdError" → e.name = "MissingFulfillmentError" →
      (payRequest aguid uuidSeed env p).outcome = Except.ok none ∧
      (payRequest aguid uuidSeed env p).calls =
        [ClientCall.connect,
          ClientCall.sendQuotedPayment (transferId aguid uuidSeed p)] ∧
      (payRequest aguid uuidSeed env p).listenerRegistered = false) ∧
    (e.name ≠ "DuplicateIdError" → e.name ≠ "MissingFulfillmentError" →
      (payRequest aguid uuidSeed env p).outcome = Except.error e ∧
      (payRequest aguid uuidSeed env p).calls =
        [ClientCall.connect,
          ClientCall.sendQuotedPayment (transferId aguid uuidSeed p)] ∧
      (payRequest aguid uuidSeed env p).listenerRegistered = false) := by
  refine ⟨?_, ?_, ?_⟩
  · intro hdup
    have hred : payRequest aguid uuidSeed env p =
        payRequestTail (transferId aguid uuidSeed p)
          { p with uuid := some (transferId aguid uuidSeed p) }
          env.fulfillmentLookup env.events :=
      payRequest_sendAccepted aguid uuidSeed env p (Or.inr ⟨e, hsend, hdup⟩)
    constructor
    · rw [hred]
      rfl
    · rw [hred]
      exact payRequestTail_getFulfillment_mem _ _ _ _
  · intro hnd hmiss
    unfold payRequest
    rw [hsend]
    simp [hnd, hmiss]
  · intro hnd hnm
    unfold payRequest
    rw [hsend]
    simp [hnd, hnm]

/-- The client oracle for a duplicate-id rejection. -/
def duplicateEnv : ClientEnv :=
  { quietEnv with sendResult := some { name := "DuplicateIdError", message := "duplicate id" } }

/-- The client oracle for a fatal submission rejection. -/
def fatalSendEnv : ClientEnv :=
  { quietEnv with
      sendResult := some { name := "InsufficientFundsError", message := "no funds" } }

/-- Witness for C2 amended: the duplicate-id rejection leaves the call
equal to the successful-submission call, a rejection named
`MissingFulfillmentError` makes the call resolve with `undefined`, and a
fatal rejection is propagated with the trace stopping at the submission. -/
theorem payRequest_duplicate_swallowed_witness :
    payRequest (fun s => s) "seed" duplicateEnv samplePaymentParams =
      payRequest (fun s => s) "seed" { duplicateEnv with sendResult := none }
        samplePaymentParams ∧
    (payRequest (fun s => s) "seed" missingSendEnv samplePaymentParams).outcome =
      Except.ok none ∧
    (payRequest (fun s => s) "seed" fatalSendEnv samplePaymentParams).outcome =
      Except.error { name := "InsufficientFundsError", message := "no funds" } := by
  have h1 := (payRequest_duplicate_swallowed (fun s => s) "seed" duplicateEnv
    samplePaymentParams { name := "DuplicateIdError", message := "duplicate id" } rfl).1 rfl
  have h2 := (payRequest_duplicate_swallowed (fun s => s) "seed" missingSendEnv
    samplePaymentParams { name := "MissingFulfillmentError", message := "sub" } rfl).2.1
    (by decide) rfl
  have h3 := (payRequest_duplicate_swallowed (fun s => s) "seed" fatalSendEnv
    samplePaymentParams { name := "InsufficientFundsError", message := "no funds" } rfl).2.2
    (by decide) (by decide)
  exact ⟨h1.1, h2.1, h3.1⟩

/-- The client oracle in which the transfer already has a recorded
fulfillment. -/
def alreadyFulfilledEnv : ClientEnv :=
  { sendResult := none, fulfillmentLookup := Except.ok "proof", events := [] }

/-- C5 counterexample — in a call where `getFulfillment` already returns a
proof, `payRequest` does resolve with that proof, yet it is not true that no
`outgoing_fulfill` listener was registered during the call: the listener is
installed (line 178) before the lookup (line 183), so registration happens
on the already-fulfilled path as well. -/
theorem payRequest_already_fulfilled_registers_listener :
    (payRequest (fun s => s) "seed" alreadyFulfilledEnv samplePaymentParams).outcome =
      Except.ok (some "proof") ∧
    ¬ (payRequest (fun s => s) "seed" alreadyFulfilledEnv
        samplePaymentParams).listenerRegistered = false := by
  constructor
  · rfl
  · decide

/-- C5 amended — when the fulfillment lookup already returns a proof (and
submission succeeded or was a swallowed duplicate), `payRequest` resolves
with that proof without consuming any fulfillment event, but an
`outgoing_fulfill` listener has been registered before the lookup and is
still registered when the call resolves (it is only removed later by its
own timer or a matching event). -/
theorem payRequest_already_fulfilled_shortcut (aguid : String → String)
    (uuidSeed : String) (env : ClientEnv) (p : PaymentParams) (f : String)
    (hsend : sendAccepted env)
    (hlook : env.fulfillmentLookup = Except.ok f) :
    (payRequest aguid uuidSeed env p).outcome = Except.ok (some f) ∧
    (payRequest aguid uuidSeed env p).listenerRegistered = true ∧
    (payRequest aguid uuidSeed env p).listenersRemaining = 1 ∧
    ClientCall.removeFulfillListener ∉ (payRequest aguid uuidSeed env p).calls := by
  rw [payRequest_sendAccepted aguid uuidSeed env p hsend]
  unfold payRequestTail
  rw [hlook]
  refine ⟨rfl, rfl, rfl, ?_⟩
  simp

/-- Witness for C5 amended, via a swallowed duplicate-id submission. -/
theorem payRequest_already_fulfilled_shortcut_witness :
    (payRequest (fun s => s) "seed"
      { duplicateEnv with fulfillmentLookup := Except.ok "proof2" }
      samplePaymentParams).outcome = Except.ok (some "proof2") ∧
    (payRequest (fun s => s) "seed"
      { duplicateEnv with fulfillmentLookup := Except.ok "proof2" }
      samplePaymentParams).listenersRemaining = 1 := by
  have h := payRequest_already_fulfilled_shortcut (fun s => s) "seed"
    { duplicateEnv with fulfillmentLookup := Except.ok "proof2" }
    samplePaymentParams "proof2"
    (Or.inr ⟨{ name := "DuplicateIdError", message := "duplicate id" }, rfl, rfl⟩) rfl
  exact ⟨h.1, h.2.2.1⟩

/-- C6 — If no recorded fulfillment exists for the transfer (the lookup
rejects with `MissingFulfillmentError`) and no `outgoing_fulfill` event
matching the execution condition arrives before `paymentParams.expiresAt`,
`payRequest` rejects with the expired-transfer error (`"Transfer expired,
money returned"`, the spec's `ExpiredTransferError`) and no fulfillment
listener registered by the call remains on the client afterwards. -/
theorem payRequest_timeout (aguid : String → String) (uuidSeed : String)
    (env : ClientEnv) (p : PaymentParams) (me : JsError)
    (hsend : sendAccepted env)
    (hlook : env.fulfillmentLookup = Except.error me)
    (hname : me.name = "MissingFulfillmentError")
    (hnoev : ∀ t c f, (t, c, f) ∈ env.events →
      c = p.executionCondition → p.expiresAt ≤ t) :
    (payRequest aguid uuidSeed env p).outcome = Except.error expiredTransferError ∧
    (payRequest aguid uuidSeed env p).listenerRegistered = true ∧
    (payRequest aguid uuidSeed env p).listenersRemaining = 0 := by
  have hfind : env.events.find?
      (fun e => e.2.1 == p.executionCondition && decide (e.1 < p.expiresAt)) = none := by
    rw [List.find?_eq_none]
    rintro ⟨t, c, f⟩ hmem
    simp only [Bool.and_eq_true, beq_iff_eq, decide_eq_true_eq, not_and]
    intro hc hlt
    exact absurd hlt (Nat.not_lt.mpr (hnoev t c f hmem hc))
  have hmf : matchingFulfillment p.executionCondition p.expiresAt env.events = none := by
    unfold matchingFulfillment
    rw [hfind]
    rfl
  rw [payRequest_sendAccepted aguid uuidSeed env p hsend]
  unfold payRequestTail
  rw [hlook]
  simp only [hname, if_pos]
  have hpay : matchingFulfillment
      ({ p with uuid := some (transferId aguid uuidSeed p) } : PaymentParams).executionCondition
      ({ p with uuid := some (transferId aguid uuidSeed p) } : PaymentParams).expiresAt
      env.events = none := hmf
  rw [hpay]
  exact ⟨rfl, rfl, rfl⟩

/-- The client oracle in which the only matching event arrives after the
expiry deadline. -/
def lateEventEnv : ClientEnv :=
  { quietEnv with events := [(6000, "cc:0:3:abc", "late-proof")] }

/-- Witness for C6: the fixture expires at 5000 ms and the only matching
event arrives at 6000 ms, so the call rejects with the expiry error and no
listener remains. -/
theorem payRequest_timeout_witness :
    (payRequest (fun s => s) "seed" lateEventEnv samplePaymentParams).outcome =
      Except.error expiredTransferError ∧
    (payRequest (fun s => s) "seed" lateEventEnv samplePaymentParams).listenersRemaining = 0 := by
  have h := payRequest_timeout (fun s => s) "seed" lateEventEnv samplePaymentParams
    { name := "MissingFulfillmentError", message := "" } (Or.inl rfl) rfl rfl
    (by
      intro t c f hmem hc
      have ht : t = 6000 := by
        have : (t, c, f) = (6000, "cc:0:3:abc", "late-proof") := by
          simpa [lateEventEnv, quietEnv] using hmem
        exact congrArg Prod.fst this
      rw [ht]
      decide)
  exact ⟨h.1, h.2.2⟩

/-- The record passed to `cryptoHelper.hmacJsonForPskCondition`
(`sender.js` line 225): the state of the `paymentRequest` object at the
moment the condition preimage is computed. -/
structure HmacInput where
  address : String
  amount : String
  expires_at : Nat
  data : Option String
deriving DecidableEq, Repr

/-- The payment request returned by `createRequest` (`sender.js` lines
215-237). `data` is the optional `{ blob: ... }` wrapper, holding the
base64url-encoded ciphertext. -/
structure CreatedRequest where
  address : String
  amount : String
  expires_at : Nat
  data : Option String
  condition : String
deriving DecidableEq, Repr

/-- The `params` argument of `createRequest`. `id` and `expiresAt` are the
optional inputs whose absence the code fills with `uuid.v4()` and
`moment().add(defaultRequestTimeout, 'seconds')` respectively; those two
oracles are the explicit `freshId` / `now` parameters of the embedding. -/
structure CreateParams where
  destinationAccount : String
  destinationAmount : String
  sharedSecret : String
  id : Option String
  expiresAt : Option Nat
  data : Option String
deriving DecidableEq, Repr

/-- `createRequest` (`sender.js` lines 215-237). The external helpers are
abstracted: `hmacJson` is `cryptoHelper.hmacJsonForPskCondition`,
`toCondUri` is `toConditionUri`, `aesEncrypt` is
`cryptoHelper.aesEncryptObject` (on the already-serialized data), `b64url`
is `base64url`; the `Buffer.from(sharedSecret, 'base64')` decoding is folded
into those abstract functions. Besides the returned request, the embedding
also returns the `HmacInput` record that the condition preimage was computed
over, as an observation of the call. -/
def createRequest (hmacJson : HmacInput → String → String)
    (toCondUri : String → String) (aesEncrypt : String → String → String)
    (b64url : String → String) (defaultRequestTimeout now : Nat)
    (freshId : String) (params : CreateParams) : CreatedRequest × HmacInput :=
  let expiry := params.expiresAt.getD (now + defaultRequestTimeout * 1000)
  let address := params.destinationAccount ++ "." ++ params.id.getD freshId
  let hmacArg : HmacInput :=
    { address := address, amount := params.destinationAmount,
      expires_at := expiry, data := none }
  let condition := toCondUri (hmacJson hmacArg params.sharedSecret)
  let dataBlob := params.data.map (fun d => b64url (aesEncrypt d params.sharedSecret))
  ({ address := address, amount := params.destinationAmount, expires_at := expiry,
     data := dataBlob, condition := condition }, hmacArg)

/-- A concrete `createRequest` argument fixture, with a data payload and
with `id` and `expiresAt` supplied. -/
def sampleCreateParams : CreateParams :=
  { destinationAccount := "g.us.bob", destinationAmount := "100"
    sharedSecret := "secret", id := some "abc", expiresAt := some 30000
    data := some "memo" }

/-- C4 counterexample — at a concrete call that supplies a data payload,
the returned request carries the encrypted blob, yet the record the
condition was HMACed over has no data field at all: the condition is
computed (line 225) before the blob is attached (lines 228-232), so the
condition commitment does not cover the encrypted data. -/
theorem createRequest_condition_misses_data :
    (createRequest (fun i _ => i.address) (fun s => s) (fun d s => d ++ s)
      (fun s => s) 30 0 "fresh" sampleCreateParams).1.data = some "memosecret" ∧
    (createRequest (fun i _ => i.address) (fun s => s) (fun d s => d ++ s)
      (fun s => s) 30 0 "fresh" sampleCreateParams).2.data = none := by
  exact ⟨rfl, rfl⟩

/-- C4 amended — when a data payload is supplied, the returned request
carries the base64url-encoded encrypted blob, but the condition is computed
before the blob is attached, over the address-with-discriminator, the
amount and the expiry only: the record fed to the condition HMAC has no
data, and the returned condition is exactly the condition-URI of that
data-free record's HMAC. -/
theorem createRequest_condition_excludes_data (hmacJson : HmacInput → String → String)
    (toCondUri : String → String) (aesEncrypt : String → String → String)
    (b64url : String → String) (defaultRequestTimeout now : Nat)
    (freshId : String) (params : CreateParams) (d : String)
    (hdata : params.data = some d) :
    (createRequest hmacJson toCondUri aesEncrypt b64url defaultRequestTimeout
        now freshId params).1.data =
      some (b64url (aesEncrypt d params.sharedSecret)) ∧
    (createRequest hmacJson toCondUri aesEncrypt b64url defaultRequestTimeout
        now freshId params).2 =
      { address := params.destinationAccount ++ "." ++ params.id.getD freshId
        amount := params.destinationAmount
        expires_at := params.expiresAt.getD (now + defaultRequestTimeout * 1000)
        data := none } ∧
    (createRequest hmacJson toCondUri aesEncrypt b64url defaultRequestTimeout
        now freshId params).1.condition =
      toCondUri (hmacJson
        (createRequest hmacJson toCondUri aesEncrypt b64url defaultRequestTimeout
          now freshId params).2 params.sharedSecret) := by
  refine ⟨?_, rfl, rfl⟩
  simp [createRequest, hdata]

/-- Witness for C4 amended at the concrete fixture. -/
theorem createRequest_condition_excludes_data_witness :
    (createRequest (fun i _ => i.address) (fun s => s) (fun d s => d ++ s)
      (fun s => s) 30 0 "fresh" sampleCreateParams).1.data =
      some ((fun s => s) ((fun d s => d ++ s) "memo" sampleCreateParams.sharedSecret)) := by
  exact (createRequest_condition_excludes_data (fun i _ => i.address) (fun s => s)
    (fun d s => d ++ s) (fun s => s) 30 0 "fresh" sampleCreateParams "memo" rfl).1

/-- C7 — Condition derivation is pure and deterministic: with the caller
supplying both `id` and `expiresAt` (the only otherwise random or
clock-dependent inputs), the whole of `createRequest` — condition included —
is independent of the clock and of the fresh-identifier source, so two calls
with identical inputs yield identical output. -/
theorem createRequest_deterministic (hmacJson : HmacInput → String → String)
    (toCondUri : String → String) (aesEncrypt : String → String → String)
    (b64url : String → String) (defaultRequestTimeout : Nat)
    (params : CreateParams) (i : String) (e : Nat)
    (hid : params.id = some i) (hexp : params.expiresAt = some e)
    (now1 now2 : Nat) (freshId1 freshId2 : String) :
    createRequest hmacJson toCondUri aesEncrypt b64url defaultRequestTimeout
        now1 freshId1 params =
      createRequest hmacJson toCondUri aesEncrypt b64url defaultRequestTimeout
        now2 freshId2 params := by
  simp [createRequest, hid, hexp]

/-- Witness for C7: two calls at different clocks and different fresh
identifiers coincide on the fixture that supplies `id` and `expiresAt`. -/
theorem createRequest_deterministic_witness :
    createRequest (fun i _ => i.address) (fun s => s) (fun d s => d ++ s)
        (fun s => s) 30 0 "freshA" sampleCreateParams =
      createRequest (fun i _ => i.address) (fun s => s) (fun d s => d ++ s)
        (fun s => s) 30 99999 "freshB" sampleCreateParams := by
  exact createRequest_deterministic (fun i _ => i.address) (fun s => s)
    (fun d s => d ++ s) (fun s => s) 30 sampleCreateParams "abc" 30000 rfl rfl
    0 99999 "freshA" "freshB"

/-- Modelled from the spec: the `F99_APPLICATION_ERROR` code of the external
Error Catalog (`utils/ilp-errors` is not under `src`); only the identity of
the catalog value matters to the claim, not the concrete code string. -/
def F99_APPLICATION_ERROR : String := "F99"

/-- The `ReceiverRejectionError` class (unnamed source file, lines 6-12). -/
structure ReceiverRejectionError where
  message : String
  ilpErrorCode : String
deriving DecidableEq, Repr

/-- The `ReceiverRejectionError` constructor: `super(message)` stores the
message, then `this.ilpErrorCode = codes.F99_APPLICATION_ERROR`
unconditionally. -/
def mkReceiverRejectionError (message : String) : ReceiverRejectionError :=
  { message := message, ilpErrorCode := F99_APPLICATION_ERROR }

/-- C10 — Every `ReceiverRejectionError` constructed from any message has
its `ilpErrorCode` equal to the catalog's `F99_APPLICATION_ERROR` code,
regardless of the message, which is stored unchanged. -/
theorem receiverRejectionError_code_invariant (message : String) :
    (mkReceiverRejectionError message).ilpErrorCode = F99_APPLICATION_ERROR ∧
    (mkReceiverRejectionError message).message = message :=
  ⟨rfl, rfl⟩
